import Mathlib

/-!
Shallow embedding of mpv-notification-osd (src/notification-osd.c).

The embedding models the event-coalescing decision engine (the accumulated
action set resolved by the function done), the thumbnail derivation pipeline
(thumbnail_ctx_maybe_new / thumbnail_ctx_process / queue_screenshot /
on_done_screenshot), the options diffing (opts_run_changed) and the event
handlers (on_property_change, on_client_message, timer expiry, seek, video
reconfig).

Modelling conventions:
- mpv_node tagged unions become a record carrying every union member next to
  the format tag, matching C union access (reading a member that was not the
  last one written is type punning in C; the record makes it total).
- External calls (libnotify, sws, malloc, mpv commands) are represented by an
  oracle record Env for their success, and by an Effect list for the calls
  the program makes; the program state mutated by the C code is threaded
  explicitly through a record St.
- double arithmetic of the thumbnail sizing is modelled exactly over ℚ; the
  C cast (int) of a nonnegative value is the floor (c_trunc below).
- lround/isnormal of the percent-pos double are carried as abstract data
  (dblRounded / dblIsNormal) on the stored node, since the decision logic
  only compares them.
-/

/-- Formats of mpv_node values that the plugin stores (MPV_FORMAT_*). -/
inductive Format where
  | fnone
  | fstring
  | fflag
  | fint64
  | fdouble
deriving DecidableEq, Repr

/-- mpv_node as used by the plugin: a format tag plus the union members the
plugin reads. A C string pointer becomes Option String (none = NULL). -/
structure MpvNode where
  format : Format
  string : Option String
  flag : Bool
  int64 : Int
  dblIsNormal : Bool
  dblRounded : Int
deriving DecidableEq, Repr

/-- The all-zero mpv_node, as produced by (struct mpv_node){0}. -/
def MpvNode.zero : MpvNode := ⟨Format.fnone, none, false, 0, false, 0⟩

/-- str_is_set from the source: non-NULL and nonempty. -/
def str_is_set (s : Option String) : Bool :=
  match s with
  | none => false
  | some str => !str.isEmpty

/-- Truth of a stored node, as computed by op_true / opt_true in the source. -/
def node_true (n : MpvNode) : Bool :=
  match n.format with
  | Format.fnone => false
  | Format.fstring => str_is_set n.string
  | Format.fflag => n.flag
  | Format.fint64 => !(n.int64 == 0)
  | Format.fdouble => false

/-- op_avail from the source: the stored format is not MPV_FORMAT_NONE. -/
def node_avail (n : MpvNode) : Bool :=
  !(n.format == Format.fnone)

/-- The accumulated action bitmask done_actions (enum done_action). -/
structure ActionSet where
  rst : Bool
  upd : Bool
  close : Bool
  queueShot : Bool
  forcedQueueShot : Bool
  checkImage : Bool
deriving DecidableEq, Repr

/-- The empty action set (done_actions = 0). -/
def ActionSet.none : ActionSet := ⟨false, false, false, false, false, false⟩

/-- Bitwise or of two action sets (done_actions |= x). -/
def ActionSet.join (a b : ActionSet) : ActionSet :=
  ⟨a.rst || b.rst, a.upd || b.upd, a.close || b.close,
   a.queueShot || b.queueShot, a.forcedQueueShot || b.forcedQueueShot,
   a.checkImage || b.checkImage⟩

/-- A_NTF_RST as a singleton action set. -/
def aNtfRst : ActionSet := ⟨true, false, false, false, false, false⟩

/-- A_NTF_UPD as a singleton action set. -/
def aNtfUpd : ActionSet := ⟨false, true, false, false, false, false⟩

/-- A_NTF_CLOSE as a singleton action set. -/
def aNtfClose : ActionSet := ⟨false, false, true, false, false, false⟩

/-- A_QUEUE_SHOT as a singleton action set. -/
def aQueueShot : ActionSet := ⟨false, false, false, true, false, false⟩

/-- A_FORCED_QUEUE_SHOT as a singleton action set. -/
def aForcedQueueShot : ActionSet := ⟨false, false, false, false, true, false⟩

/-- A_NTF_CHECK_IMAGE as a singleton action set. -/
def aNtfCheckImage : ActionSet := ⟨false, false, false, false, false, true⟩

/-- Flag-wise containment of action sets: every flag set in a is set in b. -/
def ActionSet.Sub (a b : ActionSet) : Prop :=
  (a.rst = true → b.rst = true) ∧
  (a.upd = true → b.upd = true) ∧
  (a.close = true → b.close = true) ∧
  (a.queueShot = true → b.queueShot = true) ∧
  (a.forcedQueueShot = true → b.forcedQueueShot = true) ∧
  (a.checkImage = true → b.checkImage = true)

theorem ActionSet.Sub.refl (a : ActionSet) : a.Sub a :=
  ⟨id, id, id, id, id, id⟩

theorem ActionSet.Sub.join_left (a b : ActionSet) : a.Sub (a.join b) := by
  refine ⟨?_, ?_, ?_, ?_, ?_, ?_⟩ <;>
    (intro h; simp [ActionSet.join, h])

theorem ActionSet.Sub.trans {a b c : ActionSet} (h1 : a.Sub b) (h2 : b.Sub c) :
    a.Sub c := by
  obtain ⟨x1, x2, x3, x4, x5, x6⟩ := h1
  obtain ⟨y1, y2, y3, y4, y5, y6⟩ := h2
  exact ⟨fun h => y1 (x1 h), fun h => y2 (x2 h), fun h => y3 (x3 h),
    fun h => y4 (x4 h), fun h => y5 (x5 h), fun h => y6 (x6 h)⟩

/-- Option identifiers (enum opts_key). -/
inductive OptsKey where
  | oExpireTimeout
  | oNtfAppIcon
  | oNtfCategory
  | oNtfUrgency
  | oSendThumbnail
  | oSendProgress
  | oSendSubText
  | oThumbnailSize
  | oScreenshotFlags
  | oThumbnailScaling
  | oDisableScaling
  | oFocusManual
  | oPerfdata
deriving DecidableEq, Repr

/-- The option keys in enum order, as iterated by the for loop 0..O_END. -/
def allOptsKeys : List OptsKey :=
  [OptsKey.oExpireTimeout, OptsKey.oNtfAppIcon, OptsKey.oNtfCategory,
   OptsKey.oNtfUrgency, OptsKey.oSendThumbnail, OptsKey.oSendProgress,
   OptsKey.oSendSubText, OptsKey.oThumbnailSize, OptsKey.oScreenshotFlags,
   OptsKey.oThumbnailScaling, OptsKey.oDisableScaling, OptsKey.oFocusManual,
   OptsKey.oPerfdata]

/-- An option snapshot slot (a struct mpv_node restricted to the formats the
option table uses). -/
abbrev OptNode := MpvNode

/-- An option snapshot: fixed-size array indexed by option identifier. -/
abbrev Opts := OptsKey → OptNode

/-- Build an INT64 option slot. -/
def intNode (n : Int) : OptNode := ⟨Format.fint64, none, false, n, false, 0⟩

/-- Build a STRING option slot. -/
def strNode (s : Option String) : OptNode :=
  ⟨Format.fstring, s, false, 0, false, 0⟩

/-- Build a FLAG option slot. -/
def flagNode (b : Bool) : OptNode := ⟨Format.fflag, none, b, 0, false, 0⟩

/-- opt_true from the source, reading a given snapshot. -/
def opt_true (o : Opts) (k : OptsKey) : Bool := node_true (o k)

/-- opts_defaults from the source (NOTIFY_URGENCY_LOW = 0, SWS_BICUBIC = 4). -/
def opts_defaults : Opts := fun k =>
  match k with
  | OptsKey.oExpireTimeout => intNode 10
  | OptsKey.oNtfAppIcon => strNode (some "mpv")
  | OptsKey.oNtfCategory => strNode (some "mpv")
  | OptsKey.oNtfUrgency => intNode 0
  | OptsKey.oSendThumbnail => flagNode true
  | OptsKey.oSendProgress => flagNode true
  | OptsKey.oSendSubText => flagNode true
  | OptsKey.oThumbnailSize => intNode 64
  | OptsKey.oScreenshotFlags => strNode (some "video")
  | OptsKey.oThumbnailScaling => intNode 4
  | OptsKey.oDisableScaling => flagNode false
  | OptsKey.oFocusManual => flagNode false
  | OptsKey.oPerfdata => flagNode false

/-- Observed property identifiers (enum observed_prop_userdata). -/
inductive PropId where
  | pAppName
  | pBrightness
  | pChapter
  | pChapters
  | pContrast
  | pCurrentTracksVideoImage
  | pDuration
  | pEdition
  | pEditions
  | pEofReached
  | pFocused
  | pGamma
  | pHue
  | pIdleActive
  | pImageDisplayDuration
  | pKeepOpen
  | pLavfiComplex
  | pMediaTitle
  | pMetadata
  | pMsgLevel
  | pMousePos
  | pMute
  | pOptionsScriptOpts
  | pLoopFile
  | pPause
  | pPausedForCache
  | pPercentPos
  | pPlayDirection
  | pPlaylistCount
  | pPlaylistPos
  | pSaturation
  | pSeeking
  | pSpeed
  | pSubText
  | pSubVisibility
  | pTimePos
  | pUserDataDetectImageDetected
  | pVid
  | pVolume
deriving DecidableEq, Repr

/-- The action mask of each observed property (observed_props[..].action). -/
def prop_action (p : PropId) : ActionSet :=
  match p with
  | PropId.pAppName => aNtfUpd
  | PropId.pBrightness => aQueueShot
  | PropId.pChapter => aNtfUpd
  | PropId.pChapters => aNtfUpd
  | PropId.pContrast => aQueueShot
  | PropId.pCurrentTracksVideoImage => ActionSet.none
  | PropId.pDuration => aNtfUpd
  | PropId.pEdition => aNtfUpd
  | PropId.pEditions => aNtfUpd
  | PropId.pEofReached => aNtfRst
  | PropId.pFocused => aNtfClose
  | PropId.pGamma => aQueueShot
  | PropId.pHue => aQueueShot
  | PropId.pIdleActive => aNtfUpd.join aNtfCheckImage
  | PropId.pImageDisplayDuration => aNtfUpd
  | PropId.pKeepOpen => aNtfRst
  | PropId.pLavfiComplex => aNtfUpd.join aNtfCheckImage
  | PropId.pMediaTitle => aNtfUpd
  | PropId.pMetadata => aNtfRst.join aNtfCheckImage
  | PropId.pMsgLevel => ActionSet.none
  | PropId.pMousePos => ActionSet.none
  | PropId.pMute => aNtfUpd
  | PropId.pOptionsScriptOpts => ActionSet.none
  | PropId.pLoopFile => aNtfRst
  | PropId.pPause => aNtfRst
  | PropId.pPausedForCache => aNtfUpd
  | PropId.pPercentPos => ActionSet.none
  | PropId.pPlayDirection => aNtfUpd
  | PropId.pPlaylistCount => aNtfUpd
  | PropId.pPlaylistPos => aNtfUpd
  | PropId.pSaturation => aQueueShot
  | PropId.pSeeking => aNtfUpd
  | PropId.pSpeed => aNtfUpd
  | PropId.pSubText => aNtfUpd
  | PropId.pSubVisibility => aNtfUpd
  | PropId.pTimePos => aNtfUpd
  | PropId.pUserDataDetectImageDetected => aNtfUpd
  | PropId.pVid => aNtfUpd.join aNtfCheckImage
  | PropId.pVolume => aNtfUpd

/-- observed_props[..].action_if_true: trigger only if the property is true. -/
def prop_action_if_true (p : PropId) : Bool :=
  match p with
  | PropId.pEofReached => true
  | PropId.pFocused => true
  | _ => false

/-- observed_props[..].part_of_summary. -/
def prop_part_of_summary (p : PropId) : Bool :=
  match p with
  | PropId.pMediaTitle => true
  | PropId.pMetadata => true
  | PropId.pUserDataDetectImageDetected => true
  | _ => false

/-- observed_props[..].part_of_body. -/
def prop_part_of_body (p : PropId) : Bool :=
  match p with
  | PropId.pChapter => true
  | PropId.pChapters => true
  | PropId.pDuration => true
  | PropId.pEdition => true
  | PropId.pEditions => true
  | PropId.pEofReached => true
  | PropId.pImageDisplayDuration => true
  | PropId.pKeepOpen => true
  | PropId.pLoopFile => true
  | PropId.pMetadata => true
  | PropId.pMute => true
  | PropId.pPause => true
  | PropId.pPausedForCache => true
  | PropId.pPlayDirection => true
  | PropId.pPlaylistCount => true
  | PropId.pPlaylistPos => true
  | PropId.pSeeking => true
  | PropId.pSpeed => true
  | PropId.pSubText => true
  | PropId.pSubVisibility => true
  | PropId.pTimePos => true
  | PropId.pVolume => true
  | _ => false

/-- The thumbnail context (struct thumbnail_ctx). The owned buffer, the
pixbuf wrapper and the sws context are modelled by whether they are
non-NULL. -/
structure ThumbCtx where
  src_w : Int
  src_stride : Int
  src_h : Int
  dst_w : Int
  dst_stride : Int
  dst_h : Int
  thumbnail : Bool
  pixbuf : Bool
  sws : Bool
deriving DecidableEq, Repr

/-- The zeroed thumbnail context (after memset 0). -/
def ThumbCtx.empty : ThumbCtx := ⟨0, 0, 0, 0, 0, 0, false, false, false⟩

/-- External calls the plugin makes, in program order. -/
inductive Effect where
  | screenshotCmd
  | closeCall
  | updateCall
  | showCall
  | setImage
  | setProgressBar
  | setCategory
  | setUrgency
  | setAppIcon
  | setAppName
  | frameProcessed
deriving DecidableEq, Repr

/-- Success oracles for the external resources the plugin constructs. -/
structure Env where
  cmdOk : Bool
  showOk : Bool
  reinitOk : Bool
  swsOk : Bool
  mallocOk : Bool
  pixbufOk : Bool
deriving DecidableEq, Repr

/-- The mutable program state of the plugin (the file-scope globals that the
decision engine reads and writes). -/
structure St where
  props : PropId → MpvNode
  doneActions : ActionSet
  ntfImageEnabled : Bool
  rewriteSummary : Bool
  rewriteBody : Bool
  metadataAvail : Bool
  mouseHovered : Bool
  screenshotInProgress : Bool
  percentPosRounded : Int
  forceOpen : Bool
  timerArmed : Bool
  ntfExists : Bool
  opts : Opts
  optsBase : Opts
  thumbCtx : ThumbCtx

/-- D-Bus spec maximum message length guard (MAX_IMAGE_SIZE). -/
def max_image_size : Int := 127 * 1024 * 1024

/-- The C cast (int) applied to a double value: truncation toward zero,
modelled exactly on ℚ. -/
def c_trunc (q : ℚ) : Int := if 0 ≤ q then ⌊q⌋ else ⌈q⌉

/-- ntf_set_image: notify_notification_set_image_from_pixbuf, a no-op when
no notification object exists. -/
def ntf_set_image (s : St) : List Effect :=
  if s.ntfExists then [Effect.setImage] else []

/-- thumbnail_ctx_destroy: free the buffers, zero the context; if a
notification object exists, clear its image. -/
def thumbnail_ctx_destroy (s : St) : St × List Effect :=
  ({s with thumbCtx := ThumbCtx.empty}, ntf_set_image s)

/-- The destination geometry (dst_w, dst_stride, dst_h) that
thumbnail_ctx_maybe_new computes for a rebuilt context: copy of the source
when scaling is disabled, otherwise a uniform factor min(size/w, size/h)
with each dimension truncated and clamped to at least 1, and a stride of
dst_w * 4. -/
def thumb_dst_triple (o : Opts) (src_w src_h src_stride : Int) :
    Int × Int × Int :=
  if opt_true o OptsKey.oDisableScaling then (src_w, src_stride, src_h)
  else
    let scaled_size : ℚ := ((o OptsKey.oThumbnailSize).int64 : ℚ)
    let factor : ℚ := min (scaled_size / (src_w : ℚ)) (scaled_size / (src_h : ℚ))
    let dw := max 1 (c_trunc ((src_w : ℚ) * factor))
    (dw, dw * 4, max 1 (c_trunc ((src_h : ℚ) * factor)))

/-- thumbnail_ctx_maybe_new: keep the context when the source geometry still
matches (updating only the source stride); otherwise destroy it and rebuild
the destination geometry, the sws context (scaling path only), the output
buffer and the pixbuf wrapper, tearing everything down if the output would
exceed max_image_size or any construction fails. -/
def thumbnail_ctx_maybe_new (env : Env) (src_w src_h src_stride : Int)
    (s : St) : St × List Effect :=
  if src_w = s.thumbCtx.src_w ∧ src_h = s.thumbCtx.src_h ∧
      (¬ opt_true s.opts OptsKey.oDisableScaling = true ∨
       src_stride = s.thumbCtx.src_stride) then
    ({s with thumbCtx := {s.thumbCtx with src_stride := src_stride}}, [])
  else
    let p1 := thumbnail_ctx_destroy s
    let s1 := p1.1
    let e1 := p1.2
    let t := thumb_dst_triple s1.opts src_w src_h src_stride
    let ctx : ThumbCtx :=
      {src_w := src_w, src_stride := src_stride, src_h := src_h,
       dst_w := t.1, dst_stride := t.2.1, dst_h := t.2.2,
       thumbnail := false, pixbuf := false,
       sws := !(opt_true s1.opts OptsKey.oDisableScaling) && env.swsOk}
    if ¬ opt_true s1.opts OptsKey.oDisableScaling = true ∧ env.swsOk = false
    then
      let p2 := thumbnail_ctx_destroy {s1 with thumbCtx := ctx}
      (p2.1, e1 ++ p2.2)
    else
      let alloc_size := ctx.dst_stride * ctx.dst_h
      if alloc_size > max_image_size then
        let p2 := thumbnail_ctx_destroy {s1 with thumbCtx := ctx}
        (p2.1, e1 ++ p2.2)
      else if env.mallocOk = false then
        let p2 := thumbnail_ctx_destroy {s1 with thumbCtx := ctx}
        (p2.1, e1 ++ p2.2)
      else if env.pixbufOk = false then
        let p2 := thumbnail_ctx_destroy
          {s1 with thumbCtx := {ctx with thumbnail := true}}
        (p2.1, e1 ++ p2.2)
      else
        let s2 := {s1 with thumbCtx := {ctx with thumbnail := true,
                                                 pixbuf := true}}
        (s2, e1 ++ ntf_set_image s2)

/-- thumbnail_ctx_process: convert one frame into the output buffer (sws
scale or plain copy), then request a notification content refresh. -/
def thumbnail_ctx_process (s : St) : St × List Effect :=
  if s.thumbCtx.thumbnail = false then (s, [])
  else
    let s1 := if opt_true s.opts OptsKey.oPerfdata then
                {s with rewriteBody := true} else s
    ({s1 with doneActions := s1.doneActions.join aNtfUpd},
     [Effect.frameProcessed])

/-- queue_screenshot: request a raw screenshot asynchronously unless images
are disabled or the timer is not armed and the request is neither forced nor
covered by the force-open override; an outstanding request is marked
abandoned (flag cleared) before reissuing. -/
def queue_screenshot (force : Bool) (env : Env) (s : St) : St × List Effect :=
  if !s.ntfImageEnabled || (!s.timerArmed && (!force && !s.forceOpen)) then
    (s, [])
  else
    let s1 := if s.screenshotInProgress then
                {s with screenshotInProgress := false} else s
    if env.cmdOk then
      ({s1 with screenshotInProgress := true}, [Effect.screenshotCmd])
    else (s1, [])

/-- ntf_close: close the notification if one exists. -/
def ntf_close (s : St) : List Effect :=
  if s.ntfExists then [Effect.closeCall] else []

/-- ntf_reinit: uninit (closing the notification) and reinit the whole
libnotify session. ntf_init never shows the notification; on success it
re-applies app identity, icon, progress, category, urgency and image. -/
def ntf_reinit (env : Env) (s : St) : St × List Effect :=
  let e1 := ntf_close s
  let s1 := {s with ntfExists := false}
  if env.reinitOk then
    ({s1 with ntfExists := true},
     e1 ++ [Effect.setAppName, Effect.setAppIcon, Effect.setProgressBar,
            Effect.setCategory, Effect.setUrgency, Effect.setImage])
  else (s1, e1)

/-- ntf_upd: rewrite dirty text, push an update when any text was dirty,
then show the notification; a failed show triggers a full session reinit. -/
def ntf_upd (env : Env) (s : St) : St × List Effect :=
  if !s.ntfExists then ntf_reinit env s
  else
    let e1 := if s.rewriteSummary || s.rewriteBody then [Effect.updateCall]
              else []
    let s1 := {s with rewriteSummary := false, rewriteBody := false}
    let p2 := if env.showOk then (s1, ([] : List Effect))
              else ntf_reinit env s1
    let s3 := if opt_true p2.1.opts OptsKey.oPerfdata then
                {p2.1 with rewriteBody := true} else p2.1
    (s3, e1 ++ [Effect.showCall] ++ p2.2)

/-- ntf_rst: restart the expire timer, queue a screenshot when the timer was
previously unarmed, and refresh the notification. -/
def ntf_rst (env : Env) (s : St) : St × List Effect :=
  let timer_was_armed := s.timerArmed
  let s1 := {s with timerArmed := true}
  let p2 := if !timer_was_armed then queue_screenshot false env s1
            else (s1, ([] : List Effect))
  let p3 := ntf_upd env p2.1
  (p3.1, p2.2 ++ p3.2)

/-- player_considered_focused from the source. -/
def player_considered_focused (s : St) : Bool :=
  node_true (s.props PropId.pFocused) || s.mouseHovered ||
    opt_true s.opts OptsKey.oFocusManual

/-- The disable criteria of ntf_check_image: idle, or send_thumbnail off,
or no video track selected while neither a lavfi-complex is active nor a
track switch is in progress (not idle, no track, no metadata yet). -/
def ntf_image_disable_cond (s : St) : Bool :=
  let switching_track := !(node_true (s.props PropId.pIdleActive)) &&
    !(node_avail (s.props PropId.pVid)) && !s.metadataAvail
  node_true (s.props PropId.pIdleActive) ||
    !(opt_true s.opts OptsKey.oSendThumbnail) ||
    (!(node_avail (s.props PropId.pVid)) &&
     !(node_true (s.props PropId.pLavfiComplex)) && !switching_track)

/-- ntf_check_image: enable or disable notification image support; on an
enabled-to-disabled transition, tear down the thumbnail context and request
a content refresh. -/
def ntf_check_image (s : St) : St × List Effect :=
  if ntf_image_disable_cond s then
    if s.ntfImageEnabled then
      let p1 := thumbnail_ctx_destroy {s with ntfImageEnabled := false}
      ({p1.1 with doneActions := p1.1.doneActions.join aNtfUpd}, p1.2)
    else (s, [])
  else
    if !s.ntfImageEnabled then ({s with ntfImageEnabled := true}, [])
    else (s, [])

/-- The first two steps of done: run CHECK_IMAGE if accumulated, then queue
a forced or normal screenshot if accumulated. -/
def done_pre (env : Env) (s : St) : St × List Effect :=
  let p1 := if s.doneActions.checkImage then ntf_check_image s
            else (s, ([] : List Effect))
  let s1 := p1.1
  let p2 := if s1.doneActions.forcedQueueShot then
              queue_screenshot true env s1
            else if s1.doneActions.queueShot then
              queue_screenshot false env s1
            else (s1, ([] : List Effect))
  (p2.1, p1.2 ++ p2.2)

/-- The visibility-eligibility gate of done: the notification may be
opened/updated only if the player is not considered focused or force-open is
active, and metadata plus a time position are available or the player is
idle. -/
def visibility_eligible (s : St) : Bool :=
  (!(player_considered_focused s) || s.forceOpen) &&
  ((s.metadataAvail && node_avail (s.props PropId.pTimePos)) ||
   node_true (s.props PropId.pIdleActive))

/-- The remaining steps of done on the state left by done_pre: the CLOSE
short-circuit (disarm the timer, close, skip the rest), otherwise the
focus/availability-gated RST or UPD, and the final clearing of the
accumulated action set. -/
def done_resolve (env : Env) (s2 : St) : St × List Effect :=
  if s2.doneActions.close && !s2.forceOpen then
    let s3 := {s2 with timerArmed := false}
    ({s3 with doneActions := ActionSet.none}, ntf_close s3)
  else
    let p4 := if visibility_eligible s2 then
                if s2.doneActions.rst then ntf_rst env s2
                else if s2.doneActions.upd && (s2.timerArmed || s2.forceOpen)
                then ntf_upd env s2
                else (s2, ([] : List Effect))
              else (s2, ([] : List Effect))
    ({p4.1 with doneActions := ActionSet.none}, p4.2)

/-- done: resolve the accumulated action set once per event batch, in
source order: CHECK_IMAGE, screenshot queueing, the CLOSE short-circuit,
then the focus/availability-gated RST or UPD, and finally clear the set. -/
def done (env : Env) (s : St) : St × List Effect :=
  let p := done_pre env s
  let p2 := done_resolve env p.1
  (p2.1, p.2 ++ p2.2)

/-- The payload of a property-change event: a scalar node, an
MPV_FORMAT_NODE map with its entries, or an MPV_FORMAT_NODE value that is
not a map. -/
inductive EvData where
  | scalar (n : MpvNode)
  | nodeMap (entries : List (String × MpvNode))
  | nodeOther
deriving DecidableEq, Repr

/-- Whether the event payload is an MPV_FORMAT_NODE map. -/
def evdata_is_node_map (d : EvData) : Bool :=
  match d with
  | EvData.nodeMap _ => true
  | _ => false

/-- save_prop: store the event value in the property slot; STRING, FLAG,
INT64 and DOUBLE values are kept, everything else (NONE, NODE, default)
zeroes the slot. -/
def save_prop (d : EvData) : MpvNode :=
  match d with
  | EvData.scalar n =>
    match n.format with
    | Format.fstring => {MpvNode.zero with format := Format.fstring,
                                           string := n.string}
    | Format.fflag => {MpvNode.zero with format := Format.fflag,
                                         flag := n.flag}
    | Format.fint64 => {MpvNode.zero with format := Format.fint64,
                                          int64 := n.int64}
    | Format.fdouble => {MpvNode.zero with format := Format.fdouble,
                                           dblIsNormal := n.dblIsNormal,
                                           dblRounded := n.dblRounded}
    | Format.fnone => MpvNode.zero
  | _ => MpvNode.zero

/-- The scan of a node map for the first FLAG entry keyed "hover". -/
def hover_scan : List (String × MpvNode) → Bool
  | [] => false
  | (k, v) :: rest =>
    if !(v.format == Format.fflag) then hover_scan rest
    else if k = "hover" then v.flag
    else hover_scan rest

/-- mouse_is_hovered: false unless the payload is a node map containing a
FLAG entry keyed "hover", whose value is returned. -/
def mouse_is_hovered (d : EvData) : Bool :=
  match d with
  | EvData.nodeMap entries => hover_scan entries
  | _ => false

/-- The per-slot change test of opts_run_changed, switching on the format of
the before slot: strings compare NULLness then contents, flags and integers
compare values, other formats never count as changed. (The C calls
strcmp on two NULLs when both sides lost their copy, which is undefined;
that unreachable-in-practice case is modelled as unchanged.) -/
def opts_changed_slot (before after : OptNode) : Bool :=
  match before.format with
  | Format.fstring =>
    match before.string, after.string with
    | none, some _ => true
    | some _, none => true
    | none, none => false
    | some x, some y => !(x == y)
  | Format.fflag => !(before.flag == after.flag)
  | Format.fint64 => !(before.int64 == after.int64)
  | _ => false

/-- The side effects opts_run_changed triggers for one changed option slot
(the switch on the option identifier). -/
def opt_changed_effects (k : OptsKey) (s : St) : St × List Effect :=
  match k with
  | OptsKey.oNtfAppIcon =>
    ({s with doneActions := s.doneActions.join aNtfUpd}, [Effect.setAppIcon])
  | OptsKey.oNtfCategory =>
    ({s with doneActions := s.doneActions.join aNtfUpd}, [Effect.setCategory])
  | OptsKey.oNtfUrgency =>
    ({s with doneActions := s.doneActions.join aNtfUpd}, [Effect.setUrgency])
  | OptsKey.oSendThumbnail =>
    let s1 := {s with doneActions := s.doneActions.join aNtfCheckImage}
    if opt_true s1.opts OptsKey.oSendThumbnail then
      ({s1 with doneActions := s1.doneActions.join aQueueShot}, [])
    else (s1, [])
  | OptsKey.oSendProgress =>
    ({s with doneActions := s.doneActions.join aNtfUpd},
     [Effect.setProgressBar])
  | OptsKey.oSendSubText =>
    ({s with doneActions := s.doneActions.join aNtfUpd, rewriteBody := true},
     [])
  | OptsKey.oThumbnailSize =>
    let p1 := thumbnail_ctx_destroy s
    ({p1.1 with doneActions := p1.1.doneActions.join aQueueShot}, p1.2)
  | OptsKey.oScreenshotFlags =>
    ({s with doneActions := s.doneActions.join aQueueShot}, [])
  | OptsKey.oThumbnailScaling =>
    let p1 := thumbnail_ctx_destroy s
    ({p1.1 with doneActions := p1.1.doneActions.join aQueueShot}, p1.2)
  | OptsKey.oDisableScaling =>
    let p1 := thumbnail_ctx_destroy s
    ({p1.1 with doneActions := p1.1.doneActions.join aQueueShot}, p1.2)
  | OptsKey.oFocusManual =>
    ({s with doneActions := s.doneActions.join aNtfRst}, [])
  | OptsKey.oPerfdata =>
    ({s with doneActions := s.doneActions.join aNtfUpd, rewriteBody := true},
     [])
  | OptsKey.oExpireTimeout => (s, [])

/-- The loop body of opts_run_changed over the remaining option keys; the
after snapshot is the live opts of the state (the global opts in C). -/
def opts_run_changed_go (before : Opts) : List OptsKey → St →
    St × List Effect
  | [], s => (s, [])
  | k :: ks, s =>
    if opts_changed_slot (before k) (s.opts k) then
      let p1 := opt_changed_effects k s
      let p2 := opts_run_changed_go before ks p1.1
      (p2.1, p1.2 ++ p2.2)
    else opts_run_changed_go before ks s

/-- opts_run_changed: for every option slot, compare the before snapshot
with the live opts and trigger that slot's side effects on a difference. -/
def opts_run_changed (before : Opts) (s : St) : St × List Effect :=
  opts_run_changed_go before allOptsKeys s

/-- The data of a reload-config client message that comes from outside the
decision core: the option snapshot after re-applying defaults and the
config file, and the one after further applying the runtime script-opts
(config parsing reads the file system and the mpv property, both external
inputs). -/
structure ReloadData where
  afterFile : Opts
  afterRuntime : Opts

/-- on_client_message: close accumulates CLOSE and clears force-open, open
accumulates RST and sets force-open, reload-config rebuilds the option
snapshots and runs the changed-option side effects. -/
def on_client_message (args : List String) (rd : ReloadData) (s : St) :
    St × List Effect :=
  match args with
  | [] => (s, [])
  | arg0 :: _ =>
    if arg0 = "close" then
      ({s with doneActions := s.doneActions.join aNtfClose,
               forceOpen := false}, [])
    else if arg0 = "open" then
      ({s with doneActions := s.doneActions.join aNtfRst,
               forceOpen := true}, [])
    else if arg0 = "reload-config" then
      let before := s.opts
      opts_run_changed before
        {s with opts := rd.afterRuntime, optsBase := rd.afterFile}
    else (s, [])

/-- on_done_screenshot: drop the reply unless images are enabled; clear the
in-progress flag; check the reply shape (map node, data pointer, nonzero
width/height/stride, extracted by the key scan); then rebuild the context
if needed and process the frame. -/
def on_done_screenshot (env : Env) (isMap dataOk : Bool)
    (res_w res_h res_stride : Int) (s : St) : St × List Effect :=
  if !s.ntfImageEnabled then (s, [])
  else
    let s1 := {s with screenshotInProgress := false}
    if !isMap then (s1, [])
    else if !dataOk || (res_w == 0) || (res_h == 0) || (res_stride == 0) then
      (s1, [])
    else
      let p2 := thumbnail_ctx_maybe_new env res_w res_h res_stride s1
      let p3 := thumbnail_ctx_process p2.1
      (p3.1, p2.2 ++ p3.2)

/-- The switch on the property id at the end of on_property_change; for the
options/script-opts property, the snapshot obtained by applying the parsed
runtime options onto the base snapshot is passed in from outside
(runtimeOpts), since the option-string parsing consumes external input.
The handlers for chapter/edition OSD strings and the log level only touch
display text and logging, which the decision core does not read. -/
def prop_special (ud : PropId) (d : EvData) (runtimeOpts : Opts) (s : St) :
    St × List Effect :=
  match ud with
  | PropId.pAppName => (s, [Effect.setAppName])
  | PropId.pIdleActive => ({s with rewriteBody := true},
                           [Effect.setProgressBar])
  | PropId.pMetadata => ({s with metadataAvail := evdata_is_node_map d}, [])
  | PropId.pMousePos =>
    let old_mouse_hovered := s.mouseHovered
    let s1 := {s with mouseHovered := mouse_is_hovered d}
    if !old_mouse_hovered && s1.mouseHovered then
      ({s1 with doneActions := s1.doneActions.join aNtfClose}, [])
    else (s1, [])
  | PropId.pOptionsScriptOpts =>
    let before := s.opts
    let newOpts :=
      match d with
      | EvData.nodeMap _ => runtimeOpts
      | EvData.nodeOther => s.optsBase
      | EvData.scalar _ => s.optsBase
    opts_run_changed before {s with opts := newOpts}
  | PropId.pPercentPos =>
    let s1 := if !(node_true (s.props PropId.pCurrentTracksVideoImage)) then
                {s with doneActions := s.doneActions.join aQueueShot}
              else s
    let old_rounded := s1.percentPosRounded
    let n := s1.props PropId.pPercentPos
    let new_rounded := if node_avail n && n.dblIsNormal then n.dblRounded
                       else 0
    let s2 := {s1 with percentPosRounded := new_rounded}
    if !(old_rounded == new_rounded) then
      ({s2 with doneActions := s2.doneActions.join aNtfUpd,
                rewriteBody := true}, [Effect.setProgressBar])
    else (s2, [])
  | PropId.pPlaylistCount => (s, [Effect.setProgressBar])
  | PropId.pPlaylistPos => (s, [Effect.setProgressBar])
  | PropId.pUserDataDetectImageDetected => (s, [Effect.setProgressBar])
  | _ => (s, [])

/-- on_property_change: store the value, accumulate the property's action
mask (gated by action_if_true), mark summary/body dirty, then run the
property-specific handler. -/
def on_property_change (ud : PropId) (d : EvData) (runtimeOpts : Opts)
    (s : St) : St × List Effect :=
  let s1 := {s with props := Function.update s.props ud (save_prop d)}
  let s2 := if !(prop_action_if_true ud) || node_true (s1.props ud) then
              {s1 with doneActions := s1.doneActions.join (prop_action ud)}
            else s1
  let s3 := if prop_part_of_summary ud then {s2 with rewriteSummary := true}
            else s2
  let s4 := if prop_part_of_body ud then {s3 with rewriteBody := true}
            else s3
  prop_special ud d runtimeOpts s4

/-- The events one batch is made of: everything dispatch_mpv_events handles
plus the expire-timer readiness of the main loop. -/
inductive Event where
  | videoReconfig
  | seek
  | commandReply (isMap dataOk : Bool) (res_w res_h res_stride : Int)
  | clientMessage (args : List String) (rd : ReloadData)
  | propChange (ud : PropId) (d : EvData) (runtimeOpts : Opts)
  | timerExpiry

/-- One step of event accumulation: the switch of dispatch_mpv_events plus
the timerfd branch of the main loop (which injects A_NTF_CLOSE). -/
def handleEvent (env : Env) (ev : Event) (s : St) : St × List Effect :=
  match ev with
  | Event.videoReconfig =>
    ({s with doneActions := s.doneActions.join aForcedQueueShot}, [])
  | Event.seek =>
    ({s with doneActions := s.doneActions.join aNtfRst}, [])
  | Event.commandReply isMap dataOk w h stride =>
    on_done_screenshot env isMap dataOk w h stride s
  | Event.clientMessage args rd => on_client_message args rd s
  | Event.propChange ud d runtimeOpts => on_property_change ud d runtimeOpts s
  | Event.timerExpiry =>
    ({s with doneActions := s.doneActions.join aNtfClose}, [])

/-- c_trunc is the identity on integers. -/
theorem c_trunc_intCast (n : ℤ) : c_trunc ((n : ℚ)) = n := by
  unfold c_trunc
  split
  · exact Int.floor_intCast n
  · exact Int.ceil_intCast n

theorem queue_screenshot_forceOpen (f : Bool) (env : Env) (s : St) :
    (queue_screenshot f env s).1.forceOpen = s.forceOpen := by
  unfold queue_screenshot
  dsimp only
  repeat' split
  all_goals rfl

theorem queue_screenshot_props (f : Bool) (env : Env) (s : St) :
    (queue_screenshot f env s).1.props = s.props := by
  unfold queue_screenshot
  dsimp only
  repeat' split
  all_goals rfl

theorem queue_screenshot_mouseHovered (f : Bool) (env : Env) (s : St) :
    (queue_screenshot f env s).1.mouseHovered = s.mouseHovered := by
  unfold queue_screenshot
  dsimp only
  repeat' split
  all_goals rfl

theorem queue_screenshot_opts (f : Bool) (env : Env) (s : St) :
    (queue_screenshot f env s).1.opts = s.opts := by
  unfold queue_screenshot
  dsimp only
  repeat' split
  all_goals rfl

theorem queue_screenshot_metadataAvail (f : Bool) (env : Env) (s : St) :
    (queue_screenshot f env s).1.metadataAvail = s.metadataAvail := by
  unfold queue_screenshot
  dsimp only
  repeat' split
  all_goals rfl

theorem queue_screenshot_timerArmed (f : Bool) (env : Env) (s : St) :
    (queue_screenshot f env s).1.timerArmed = s.timerArmed := by
  unfold queue_screenshot
  dsimp only
  repeat' split
  all_goals rfl

theorem queue_screenshot_ntfExists (f : Bool) (env : Env) (s : St) :
    (queue_screenshot f env s).1.ntfExists = s.ntfExists := by
  unfold queue_screenshot
  dsimp only
  repeat' split
  all_goals rfl

theorem queue_screenshot_doneActions (f : Bool) (env : Env) (s : St) :
    (queue_screenshot f env s).1.doneActions = s.doneActions := by
  unfold queue_screenshot
  dsimp only
  repeat' split
  all_goals rfl

theorem queue_screenshot_effects (f : Bool) (env : Env) (s : St) :
    (queue_screenshot f env s).2 = [] ∨
    (queue_screenshot f env s).2 = [Effect.screenshotCmd] := by
  unfold queue_screenshot
  dsimp only
  repeat' split
  all_goals simp

theorem check_image_forceOpen (s : St) :
    (ntf_check_image s).1.forceOpen = s.forceOpen := by
  unfold ntf_check_image thumbnail_ctx_destroy
  dsimp only
  repeat' split
  all_goals rfl

theorem check_image_props (s : St) :
    (ntf_check_image s).1.props = s.props := by
  unfold ntf_check_image thumbnail_ctx_destroy
  dsimp only
  repeat' split
  all_goals rfl

theorem check_image_mouseHovered (s : St) :
    (ntf_check_image s).1.mouseHovered = s.mouseHovered := by
  unfold ntf_check_image thumbnail_ctx_destroy
  dsimp only
  repeat' split
  all_goals rfl

theorem check_image_opts (s : St) :
    (ntf_check_image s).1.opts = s.opts := by
  unfold ntf_check_image thumbnail_ctx_destroy
  dsimp only
  repeat' split
  all_goals rfl

theorem check_image_metadataAvail (s : St) :
    (ntf_check_image s).1.metadataAvail = s.metadataAvail := by
  unfold ntf_check_image thumbnail_ctx_destroy
  dsimp only
  repeat' split
  all_goals rfl

theorem check_image_timerArmed (s : St) :
    (ntf_check_image s).1.timerArmed = s.timerArmed := by
  unfold ntf_check_image thumbnail_ctx_destroy
  dsimp only
  repeat' split
  all_goals rfl

theorem check_image_ntfExists (s : St) :
    (ntf_check_image s).1.ntfExists = s.ntfExists := by
  unfold ntf_check_image thumbnail_ctx_destroy
  dsimp only
  repeat' split
  all_goals rfl

theorem check_image_effects (s : St) :
    (ntf_check_image s).2 = [] ∨ (ntf_check_image s).2 = [Effect.setImage] := by
  unfold ntf_check_image thumbnail_ctx_destroy ntf_set_image
  dsimp only
  repeat' split
  all_goals simp

theorem done_pre_forceOpen (env : Env) (s : St) :
    (done_pre env s).1.forceOpen = s.forceOpen := by
  unfold done_pre
  dsimp only
  repeat' split
  all_goals
    simp [queue_screenshot_forceOpen, check_image_forceOpen]

theorem done_pre_props (env : Env) (s : St) :
    (done_pre env s).1.props = s.props := by
  unfold done_pre
  dsimp only
  repeat' split
  all_goals simp [queue_screenshot_props, check_image_props]

theorem done_pre_mouseHovered (env : Env) (s : St) :
    (done_pre env s).1.mouseHovered = s.mouseHovered := by
  unfold done_pre
  dsimp only
  repeat' split
  all_goals simp [queue_screenshot_mouseHovered, check_image_mouseHovered]

theorem done_pre_opts (env : Env) (s : St) :
    (done_pre env s).1.opts = s.opts := by
  unfold done_pre
  dsimp only
  repeat' split
  all_goals simp [queue_screenshot_opts, check_image_opts]

theorem done_pre_metadataAvail (env : Env) (s : St) :
    (done_pre env s).1.metadataAvail = s.metadataAvail := by
  unfold done_pre
  dsimp only
  repeat' split
  all_goals simp [queue_screenshot_metadataAvail, check_image_metadataAvail]

theorem done_pre_timerArmed (env : Env) (s : St) :
    (done_pre env s).1.timerArmed = s.timerArmed := by
  unfold done_pre
  dsimp only
  repeat' split
  all_goals simp [queue_screenshot_timerArmed, check_image_timerArmed]

theorem done_pre_ntfExists (env : Env) (s : St) :
    (done_pre env s).1.ntfExists = s.ntfExists := by
  unfold done_pre
  dsimp only
  repeat' split
  all_goals simp [queue_screenshot_ntfExists, check_image_ntfExists]

theorem check_image_doneActions (s : St) :
    (ntf_check_image s).1.doneActions = s.doneActions ∨
    (ntf_check_image s).1.doneActions = s.doneActions.join aNtfUpd := by
  unfold ntf_check_image thumbnail_ctx_destroy
  dsimp only
  repeat' split
  all_goals simp

theorem done_pre_doneActions (env : Env) (s : St) :
    (done_pre env s).1.doneActions = s.doneActions ∨
    (done_pre env s).1.doneActions = s.doneActions.join aNtfUpd := by
  unfold done_pre
  dsimp only
  repeat' split
  all_goals
    simp [queue_screenshot_doneActions, check_image_doneActions]

theorem join_upd_close (a : ActionSet) : (a.join aNtfUpd).close = a.close := by
  simp [ActionSet.join, aNtfUpd]

theorem join_upd_rst (a : ActionSet) : (a.join aNtfUpd).rst = a.rst := by
  simp [ActionSet.join, aNtfUpd]

theorem done_pre_close (env : Env) (s : St) :
    (done_pre env s).1.doneActions.close = s.doneActions.close := by
  rcases done_pre_doneActions env s with h | h <;>
    simp [h, join_upd_close]

theorem done_pre_rst (env : Env) (s : St) :
    (done_pre env s).1.doneActions.rst = s.doneActions.rst := by
  rcases done_pre_doneActions env s with h | h <;>
    simp [h, join_upd_rst]

theorem queue_screenshot_effect_mem (f : Bool) (env : Env) (s : St)
    (e : Effect) (h : e ∈ (queue_screenshot f env s).2) :
    e = Effect.screenshotCmd := by
  rcases queue_screenshot_effects f env s with h2 | h2 <;> rw [h2] at h <;>
    simp at h
  exact h

theorem check_image_effect_mem (s : St) (e : Effect)
    (h : e ∈ (ntf_check_image s).2) : e = Effect.setImage := by
  rcases check_image_effects s with h2 | h2 <;> rw [h2] at h <;> simp at h
  exact h

theorem done_pre_effects (env : Env) (s : St) (e : Effect)
    (he : e ∈ (done_pre env s).2) :
    e = Effect.setImage ∨ e = Effect.screenshotCmd := by
  unfold done_pre at he
  dsimp only at he
  rcases List.mem_append.1 he with h | h <;>
    (revert h; repeat' split) <;> intro h <;>
    first
      | exact Or.inl (check_image_effect_mem _ _ h)
      | exact Or.inr (queue_screenshot_effect_mem _ _ _ _ h)
      | simp at h

theorem ntf_reinit_timerArmed (env : Env) (s : St) :
    (ntf_reinit env s).1.timerArmed = s.timerArmed := by
  unfold ntf_reinit
  dsimp only
  repeat' split
  all_goals rfl

theorem ntf_upd_timerArmed (env : Env) (s : St) :
    (ntf_upd env s).1.timerArmed = s.timerArmed := by
  unfold ntf_upd
  dsimp only
  repeat' split
  all_goals simp [ntf_reinit_timerArmed]

theorem ntf_rst_timerArmed (env : Env) (s : St) :
    (ntf_rst env s).1.timerArmed = true := by
  unfold ntf_rst
  dsimp only
  repeat' split
  all_goals
    simp [ntf_upd_timerArmed, queue_screenshot_timerArmed]

theorem done_pre_focused (env : Env) (s : St) :
    player_considered_focused (done_pre env s).1 =
      player_considered_focused s := by
  unfold player_considered_focused opt_true
  rw [done_pre_props, done_pre_mouseHovered, done_pre_opts]

theorem done_pre_eligible (env : Env) (s : St) :
    visibility_eligible (done_pre env s).1 = visibility_eligible s := by
  unfold visibility_eligible
  rw [done_pre_focused, done_pre_forceOpen, done_pre_metadataAvail,
    done_pre_props]

theorem done_resolve_effects_focused (env : Env) (s2 : St)
    (hf : player_considered_focused s2 = true) (ho : s2.forceOpen = false) :
    (done_resolve env s2).2 = [] ∨
    (done_resolve env s2).2 = [Effect.closeCall] := by
  unfold done_resolve ntf_close
  dsimp only
  split
  · split
    · right
      rfl
    · left
      rfl
  · rw [if_neg]
    · left
      rfl
    · simp [visibility_eligible, hf, ho]

theorem done_resolve_close_branch (env : Env) (s2 : St)
    (hc : s2.doneActions.close = true) (ho : s2.forceOpen = false) :
    (done_resolve env s2).1.timerArmed = false ∧
    (done_resolve env s2).2 = ntf_close s2 := by
  unfold done_resolve
  rw [if_pos (by simp [hc, ho])]
  exact ⟨rfl, rfl⟩

theorem done_resolve_rst_branch (env : Env) (s2 : St)
    (hnc : ¬ (s2.doneActions.close = true ∧ s2.forceOpen = false))
    (hr : s2.doneActions.rst = true) (helig : visibility_eligible s2 = true) :
    (done_resolve env s2).1.timerArmed = true := by
  unfold done_resolve
  have hcond : ¬ (s2.doneActions.close && !s2.forceOpen) = true := by
    simp only [Bool.and_eq_true, Bool.not_eq_true']
    intro h
    exact hnc h
  rw [if_neg hcond]
  dsimp only
  rw [if_pos helig, if_pos hr]
  exact ntf_rst_timerArmed env s2

theorem done_resolve_no_rst_timer (env : Env) (s2 : St)
    (hnc : ¬ (s2.doneActions.close = true ∧ s2.forceOpen = false))
    (hr : s2.doneActions.rst = false) :
    (done_resolve env s2).1.timerArmed = s2.timerArmed := by
  unfold done_resolve
  have hcond : ¬ (s2.doneActions.close && !s2.forceOpen) = true := by
    simp only [Bool.and_eq_true, Bool.not_eq_true']
    intro h
    exact hnc h
  rw [if_neg hcond]
  dsimp only
  split
  · rw [if_neg (by simp [hr])]
    split
    · exact ntf_upd_timerArmed env s2
    · rfl
  · rfl

/-- A baseline state: all properties unavailable, default options, no flags
accumulated, a live notification object, nothing armed or in progress. -/
def st0 : St :=
  {props := fun _ => MpvNode.zero, doneActions := ActionSet.none,
   ntfImageEnabled := false, rewriteSummary := false, rewriteBody := false,
   metadataAvail := false, mouseHovered := false,
   screenshotInProgress := false, percentPosRounded := 0,
   forceOpen := false, timerArmed := false, ntfExists := true,
   opts := opts_defaults, optsBase := opts_defaults,
   thumbCtx := ThumbCtx.empty}

/-- An environment in which every external construction succeeds. -/
def env0 : Env :=
  {cmdOk := true, showOk := true, reinitOk := true, swsOk := true,
   mallocOk := true, pixbufOk := true}

/-- C1: if the CLOSE flag is accumulated and no force-open override is
active, resolution disarms the timer, closes the notification, and performs
no show or update call regardless of the other accumulated flags; when CLOSE
does not win, a set RESET flag restarts the timer (given eligibility), while
without RESET the timer is never restarted (a plain UPDATE never arms it). -/
theorem claim_c1_close_beats_rst_upd (env : Env) (s : St) :
    (s.doneActions.close = true → s.forceOpen = false →
      (done env s).1.timerArmed = false ∧
      Effect.showCall ∉ (done env s).2 ∧
      Effect.updateCall ∉ (done env s).2 ∧
      (s.ntfExists = true → Effect.closeCall ∈ (done env s).2)) ∧
    (¬ (s.doneActions.close = true ∧ s.forceOpen = false) →
      s.doneActions.rst = true → visibility_eligible s = true →
      (done env s).1.timerArmed = true) ∧
    (¬ (s.doneActions.close = true ∧ s.forceOpen = false) →
      s.doneActions.rst = false →
      (done env s).1.timerArmed = s.timerArmed) := by
  have hdone1 : (done env s).1 = (done_resolve env (done_pre env s).1).1 := rfl
  have hdone2 : (done env s).2 =
      (done_pre env s).2 ++ (done_resolve env (done_pre env s).1).2 := rfl
  refine ⟨?_, ?_, ?_⟩
  · intro hc ho
    have hc2 : (done_pre env s).1.doneActions.close = true := by
      rw [done_pre_close]; exact hc
    have ho2 : (done_pre env s).1.forceOpen = false := by
      rw [done_pre_forceOpen]; exact ho
    obtain ⟨ht, he⟩ := done_resolve_close_branch env (done_pre env s).1 hc2 ho2
    refine ⟨?_, ?_, ?_, ?_⟩
    · rw [hdone1]; exact ht
    · rw [hdone2]
      intro hmem
      rcases List.mem_append.1 hmem with h | h
      · rcases done_pre_effects env s _ h with h2 | h2 <;> simp at h2
      · rw [he] at h
        unfold ntf_close at h
        revert h
        split <;> intro h <;> simp at h
    · rw [hdone2]
      intro hmem
      rcases List.mem_append.1 hmem with h | h
      · rcases done_pre_effects env s _ h with h2 | h2 <;> simp at h2
      · rw [he] at h
        unfold ntf_close at h
        revert h
        split <;> intro h <;> simp at h
    · intro hntf
      rw [hdone2]
      refine List.mem_append.2 (Or.inr ?_)
      rw [he]
      have hn2 : (done_pre env s).1.ntfExists = true := by
        rw [done_pre_ntfExists]; exact hntf
      simp [ntf_close, hn2]
  · intro hnc hr helig
    have hnc2 : ¬ ((done_pre env s).1.doneActions.close = true ∧
        (done_pre env s).1.forceOpen = false) := by
      rw [done_pre_close, done_pre_forceOpen]; exact hnc
    have hr2 : (done_pre env s).1.doneActions.rst = true := by
      rw [done_pre_rst]; exact hr
    have helig2 : visibility_eligible (done_pre env s).1 = true := by
      rw [done_pre_eligible]; exact helig
    rw [hdone1]
    exact done_resolve_rst_branch env _ hnc2 hr2 helig2
  · intro hnc hr
    have hnc2 : ¬ ((done_pre env s).1.doneActions.close = true ∧
        (done_pre env s).1.forceOpen = false) := by
      rw [done_pre_close, done_pre_forceOpen]; exact hnc
    have hr2 : (done_pre env s).1.doneActions.rst = false := by
      rw [done_pre_rst]; exact hr
    rw [hdone1, done_resolve_no_rst_timer env _ hnc2 hr2, done_pre_timerArmed]

/-- A state with CLOSE, RESET and UPDATE all accumulated, the timer armed and
no force-open override, used to witness the CLOSE precedence. -/
def stC1 : St :=
  {st0 with doneActions := ⟨true, true, true, false, false, false⟩,
            timerArmed := true}

theorem claim_c1_witness :
    stC1.doneActions.close = true ∧ stC1.forceOpen = false ∧
    (done env0 stC1).1.timerArmed = false ∧
    Effect.closeCall ∈ (done env0 stC1).2 :=
  ⟨rfl, rfl, (claim_c1_close_beats_rst_upd env0 stC1).1 rfl rfl |>.1,
   ((claim_c1_close_beats_rst_upd env0 stC1).1 rfl rfl).2.2.2 rfl⟩

/-- C2: whenever the player is considered focused (focus property true, or
the mouse hovering, or manual focus set) and the force-open override is off,
resolving a batch performs no notification show or update call, for every
accumulated flag set and every property-store state. -/
theorem claim_c2_focused_suppresses_show (env : Env) (s : St)
    (hf : player_considered_focused s = true) (ho : s.forceOpen = false) :
    Effect.showCall ∉ (done env s).2 ∧ Effect.updateCall ∉ (done env s).2 := by
  have hf2 : player_considered_focused (done_pre env s).1 = true := by
    rw [done_pre_focused]; exact hf
  have ho2 : (done_pre env s).1.forceOpen = false := by
    rw [done_pre_forceOpen]; exact ho
  have hres := done_resolve_effects_focused env (done_pre env s).1 hf2 ho2
  have hdone2 : (done env s).2 =
      (done_pre env s).2 ++ (done_resolve env (done_pre env s).1).2 := rfl
  constructor <;> intro hmem <;> rw [hdone2] at hmem <;>
    rcases List.mem_append.1 hmem with h | h
  · rcases done_pre_effects env s _ h with h2 | h2 <;> simp at h2
  · rcases hres with h2 | h2 <;> rw [h2] at h <;> simp at h
  · rcases done_pre_effects env s _ h with h2 | h2 <;> simp at h2
  · rcases hres with h2 | h2 <;> rw [h2] at h <;> simp at h

/-- A state with every flag accumulated and the mouse hovering the video,
used to witness the focus suppression. -/
def stC2 : St :=
  {st0 with mouseHovered := true, timerArmed := true,
            doneActions := ⟨true, true, true, true, true, true⟩}

theorem claim_c2_witness :
    player_considered_focused stC2 = true ∧
    Effect.showCall ∉ (done env0 stC2).2 :=
  ⟨rfl, (claim_c2_focused_suppresses_show env0 stC2 rfl rfl).1⟩

theorem ActionSet.join_none (a : ActionSet) : a.join ActionSet.none = a := by
  cases a
  simp [ActionSet.join, ActionSet.none]

/-- C9: a mouse-position property change injects A_NTF_CLOSE into the batch
exactly on a false-to-true transition of the hover state; any other
mouse-position change (still hovering, still not hovering, or hover ending)
leaves the accumulated action set unchanged. -/
theorem claim_c9_mouse_hover_close (d : EvData) (ro : Opts) (s : St) :
    (on_property_change PropId.pMousePos d ro s).1.doneActions =
      (if !s.mouseHovered && mouse_is_hovered d then
         s.doneActions.join aNtfClose
       else s.doneActions) ∧
    (on_property_change PropId.pMousePos d ro s).1.mouseHovered =
      mouse_is_hovered d := by
  unfold on_property_change prop_special
  dsimp only
  simp only [prop_action_if_true, prop_part_of_summary, prop_part_of_body,
    prop_action, Bool.not_false, Bool.true_or, if_true, if_false,
    Bool.false_eq_true, ite_false, ActionSet.join_none]
  constructor
  · split <;> rfl
  · split <;> rfl

/-- C4 amended: handling an explicit "close" client message accumulates the
CLOSE flag and clears the force-open override (it writes force_open = false
in that path). -/
theorem claim_c4_close_message (s : St) (rd : ReloadData)
    (rest : List String) :
    on_client_message ("close" :: rest) rd s =
      ({s with doneActions := s.doneActions.join aNtfClose,
               forceOpen := false}, []) := by
  unfold on_client_message
  simp

/-- A state with the force-open override active. -/
def stC4 : St := {st0 with forceOpen := true}

/-- A trivial reload payload (unused by close/open messages). -/
def rd0 : ReloadData := ⟨opts_defaults, opts_defaults⟩

/-- C4 counterexample: the claim says the "close" message path does not
write the force-open override, but handling it on a state with the override
active clears the override. -/
theorem claim_c4_counterexample :
    stC4.forceOpen = true ∧
    (on_client_message ["close"] rd0 stC4).1.forceOpen = false := by
  constructor
  · rfl
  · simp [on_client_message]

/-- C10: the CHECK_IMAGE evaluation tears down the thumbnail context and
adds UPDATE to the batch exactly on an enabled-to-disabled transition;
staying in the same state, or enabling, leaves the context and the
accumulated action set untouched. -/
theorem claim_c10_check_image_transition (s : St) :
    (ntf_image_disable_cond s = true → s.ntfImageEnabled = true →
      (ntf_check_image s).1.ntfImageEnabled = false ∧
      (ntf_check_image s).1.thumbCtx = ThumbCtx.empty ∧
      (ntf_check_image s).1.doneActions = s.doneActions.join aNtfUpd) ∧
    (ntf_image_disable_cond s = true → s.ntfImageEnabled = false →
      (ntf_check_image s).1 = s ∧ (ntf_check_image s).2 = []) ∧
    (ntf_image_disable_cond s = false →
      (ntf_check_image s).1.ntfImageEnabled = true ∧
      (ntf_check_image s).1.thumbCtx = s.thumbCtx ∧
      (ntf_check_image s).1.doneActions = s.doneActions) := by
  refine ⟨?_, ?_, ?_⟩
  · intro h1 h2
    unfold ntf_check_image thumbnail_ctx_destroy
    rw [if_pos h1, if_pos h2]
    exact ⟨rfl, rfl, rfl⟩
  · intro h1 h2
    unfold ntf_check_image
    rw [if_pos h1, if_neg (by simp [h2])]
    exact ⟨rfl, rfl⟩
  · intro h1
    unfold ntf_check_image
    rw [if_neg (by simp [h1])]
    cases hE : s.ntfImageEnabled <;> simp [hE]

/-- A state with image support enabled while the player is idle, used to
witness the enabled-to-disabled transition of CHECK_IMAGE. -/
def stC10 : St :=
  {st0 with ntfImageEnabled := true,
            props := Function.update st0.props PropId.pIdleActive
              {MpvNode.zero with format := Format.fflag, flag := true}}

theorem claim_c10_witness :
    ntf_image_disable_cond stC10 = true ∧ stC10.ntfImageEnabled = true ∧
    (ntf_check_image stC10).1.ntfImageEnabled = false ∧
    (ntf_check_image stC10).1.thumbCtx = ThumbCtx.empty :=
  ⟨by decide, rfl,
   ((claim_c10_check_image_transition stC10).1 (by decide) rfl).1,
   ((claim_c10_check_image_transition stC10).1 (by decide) rfl).2.1⟩

/-- C7: on the rebuild path, if the destination byte size exceeds the hard
maximum, or the scaling engine (scaling path), output buffer or pixbuf
wrapper cannot be constructed, the thumbnail context is fully torn down: no
destination buffer remains and the context is zeroed. -/
theorem claim_c7_thumbnail_failure_teardown (env : Env) (s : St)
    (src_w src_h src_stride : Int)
    (hkeep : ¬ (src_w = s.thumbCtx.src_w ∧ src_h = s.thumbCtx.src_h ∧
      (¬ opt_true s.opts OptsKey.oDisableScaling = true ∨
       src_stride = s.thumbCtx.src_stride)))
    (hfail :
      (thumb_dst_triple s.opts src_w src_h src_stride).2.1 *
        (thumb_dst_triple s.opts src_w src_h src_stride).2.2 >
        max_image_size ∨
      (opt_true s.opts OptsKey.oDisableScaling = false ∧ env.swsOk = false) ∨
      env.mallocOk = false ∨ env.pixbufOk = false) :
    (thumbnail_ctx_maybe_new env src_w src_h src_stride s).1.thumbCtx =
      ThumbCtx.empty := by
  unfold thumbnail_ctx_maybe_new thumbnail_ctx_destroy
  rw [if_neg hkeep]
  dsimp only
  split
  next h1 => rfl
  next h1 =>
    split
    next h2 => rfl
    next h2 =>
      split
      next h3 => rfl
      next h3 =>
        split
        next h4 => rfl
        next h4 =>
          exfalso
          rcases hfail with hf | hf | hf | hf
          · exact h2 hf
          · exact h1 ⟨by simp [hf.1], hf.2⟩
          · exact h3 hf
          · exact h4 hf

/-- An option snapshot with scaling disabled. -/
def opts_nosc : Opts :=
  Function.update opts_defaults OptsKey.oDisableScaling (flagNode true)

/-- A state with scaling disabled, used to witness the oversized teardown. -/
def stC7 : St := {st0 with opts := opts_nosc}

theorem claim_c7_witness :
    (thumbnail_ctx_maybe_new env0 1 1000000 1000 stC7).1.thumbCtx =
      ThumbCtx.empty :=
  claim_c7_thumbnail_failure_teardown env0 stC7 1 1000000 1000 (by decide)
    (Or.inl (by decide))

/-- Modelled from the spec: the destination dimensions as the spec sentence
states them, max(1, round(source × factor)) with factor = min(target/w,
target/h); the code is compared against this rounding formula. -/
def spec_dst_dims (size w h : Int) : Int × Int :=
  (max 1 (round ((w : ℚ) * min ((size:ℚ)/(w:ℚ)) ((size:ℚ)/(h:ℚ)))),
   max 1 (round ((h : ℚ) * min ((size:ℚ)/(w:ℚ)) ((size:ℚ)/(h:ℚ)))))

/-- An option snapshot with thumbnail size 3 (a size at which rounding and
truncation differ). -/
def opts_c3 : Opts := fun k =>
  match k with
  | OptsKey.oThumbnailSize => intNode 3
  | k2 => opts_defaults k2

theorem thumb_triple_scenario :
    thumb_dst_triple opts_defaults 1920 1080 7680 = (64, 256, 36) := by
  norm_num [thumb_dst_triple, opts_defaults, intNode, flagNode, opt_true,
    node_true, min_def, c_trunc, Prod.ext_iff]

theorem thumb_triple_small :
    thumb_dst_triple opts_c3 5 3 20 = (3, 12, 1) := by
  norm_num [thumb_dst_triple, opts_c3, opts_defaults,
    intNode, flagNode, opt_true, node_true, min_def, c_trunc, Prod.ext_iff]

theorem spec_dims_small : spec_dst_dims 3 5 3 = (3, 2) := by
  norm_num [spec_dst_dims, min_def, round_eq, Int.floor_eq_iff, Prod.ext_iff]

/-- C3 counterexample: at source 5×3 with target size 3 and scaling enabled,
the code computes destination height max(1, trunc(3 × 3/5)) = 1, while the
claimed formula max(1, round(h × f)) gives round(1.8) = 2. -/
theorem claim_c3_counterexample :
    (thumb_dst_triple opts_c3 5 3 20).2.2 = 1 ∧
    (spec_dst_dims 3 5 3).2 = 2 ∧
    (thumb_dst_triple opts_c3 5 3 20).2.2 ≠ (spec_dst_dims 3 5 3).2 := by
  rw [thumb_triple_small, spec_dims_small]
  exact ⟨rfl, rfl, by decide⟩

/-- C3 amended: when scaling is enabled, a successfully rebuilt thumbnail
context has destination dimensions max(1, trunc(w × f)) by
max(1, trunc(h × f)) with f = min(target/w, target/h) (truncation toward
zero, not rounding), never zero-sized, and destination stride = width × 4;
when scaling is disabled the destination equals the source. Source
1920×1080 at target 64 yields 64×36 with stride 256. -/
theorem claim_c3_thumbnail_sizing (env : Env) (s : St)
    (src_w src_h src_stride : Int)
    (hkeep : ¬ (src_w = s.thumbCtx.src_w ∧ src_h = s.thumbCtx.src_h ∧
      (¬ opt_true s.opts OptsKey.oDisableScaling = true ∨
       src_stride = s.thumbCtx.src_stride)))
    (halloc : (thumb_dst_triple s.opts src_w src_h src_stride).2.1 *
        (thumb_dst_triple s.opts src_w src_h src_stride).2.2 ≤
        max_image_size)
    (hsws : env.swsOk = true) (hmal : env.mallocOk = true)
    (hpix : env.pixbufOk = true) :
    ((opt_true s.opts OptsKey.oDisableScaling = false →
      (thumbnail_ctx_maybe_new env src_w src_h src_stride
          s).1.thumbCtx.dst_w =
        max 1 (c_trunc ((src_w : ℚ) *
          min (((s.opts OptsKey.oThumbnailSize).int64 : ℚ) / (src_w : ℚ))
              (((s.opts OptsKey.oThumbnailSize).int64 : ℚ) / (src_h : ℚ)))) ∧
      (thumbnail_ctx_maybe_new env src_w src_h src_stride
          s).1.thumbCtx.dst_h =
        max 1 (c_trunc ((src_h : ℚ) *
          min (((s.opts OptsKey.oThumbnailSize).int64 : ℚ) / (src_w : ℚ))
              (((s.opts OptsKey.oThumbnailSize).int64 : ℚ) / (src_h : ℚ)))) ∧
      (thumbnail_ctx_maybe_new env src_w src_h src_stride
          s).1.thumbCtx.dst_stride =
        (thumbnail_ctx_maybe_new env src_w src_h src_stride
          s).1.thumbCtx.dst_w * 4 ∧
      1 ≤ (thumbnail_ctx_maybe_new env src_w src_h src_stride
          s).1.thumbCtx.dst_w ∧
      1 ≤ (thumbnail_ctx_maybe_new env src_w src_h src_stride
          s).1.thumbCtx.dst_h) ∧
     (opt_true s.opts OptsKey.oDisableScaling = true →
      (thumbnail_ctx_maybe_new env src_w src_h src_stride
          s).1.thumbCtx.dst_w = src_w ∧
      (thumbnail_ctx_maybe_new env src_w src_h src_stride
          s).1.thumbCtx.dst_h = src_h ∧
      (thumbnail_ctx_maybe_new env src_w src_h src_stride
          s).1.thumbCtx.dst_stride = src_stride)) ∧
    thumb_dst_triple opts_defaults 1920 1080 7680 = (64, 256, 36) := by
  have hsucc : (thumbnail_ctx_maybe_new env src_w src_h src_stride
      s).1.thumbCtx =
      {src_w := src_w, src_stride := src_stride, src_h := src_h,
       dst_w := (thumb_dst_triple s.opts src_w src_h src_stride).1,
       dst_stride := (thumb_dst_triple s.opts src_w src_h src_stride).2.1,
       dst_h := (thumb_dst_triple s.opts src_w src_h src_stride).2.2,
       thumbnail := true, pixbuf := true,
       sws := !(opt_true s.opts OptsKey.oDisableScaling) && env.swsOk} := by
    unfold thumbnail_ctx_maybe_new thumbnail_ctx_destroy
    rw [if_neg hkeep]
    dsimp only
    rw [if_neg (by simp [hsws]), if_neg (not_lt.2 halloc),
      if_neg (by simp [hmal]), if_neg (by simp [hpix])]
  refine ⟨⟨?_, ?_⟩, thumb_triple_scenario⟩
  · intro hd
    rw [hsucc]
    dsimp only
    unfold thumb_dst_triple
    rw [if_neg (by simp [hd])]
    dsimp only
    exact ⟨rfl, rfl, rfl, le_max_left 1 _, le_max_left 1 _⟩
  · intro hd
    rw [hsucc]
    dsimp only
    unfold thumb_dst_triple
    rw [if_pos hd]
    exact ⟨rfl, rfl, rfl⟩

theorem claim_c3_witness :
    thumb_dst_triple opts_defaults 1920 1080 7680 = (64, 256, 36) :=
  (claim_c3_thumbnail_sizing env0 st0 1920 1080 7680 (by decide)
    (by show (thumb_dst_triple opts_defaults 1920 1080 7680).2.1 *
          (thumb_dst_triple opts_defaults 1920 1080 7680).2.2 ≤
          max_image_size
        rw [thumb_triple_scenario]
        norm_num [max_image_size])
    rfl rfl rfl).2

/-- A state with images enabled, the timer armed, a screenshot outstanding
and scaling disabled, used around the stale screenshot reply. -/
def stC5 : St :=
  {st0 with ntfImageEnabled := true, screenshotInProgress := true,
            timerArmed := true, opts := opts_nosc}

/-- An environment in which issuing the async screenshot command fails. -/
def env_noCmd : Env :=
  {cmdOk := false, showOk := true, reinitOk := true, swsOk := true,
   mallocOk := true, pixbufOk := true}

/-- C5 counterexample: reissue a screenshot while one is outstanding, then
let the abandoned request's reply arrive; the reply is processed, changing
the thumbnail context and converting the stale frame, not ignored. -/
theorem claim_c5_counterexample :
    (queue_screenshot false env0 stC5).1.screenshotInProgress = true ∧
    Effect.frameProcessed ∈ (on_done_screenshot env0 true true 4 4 16
      (queue_screenshot false env0 stC5).1).2 ∧
    (on_done_screenshot env0 true true 4 4 16
      (queue_screenshot false env0 stC5).1).1.thumbCtx ≠
      (queue_screenshot false env0 stC5).1.thumbCtx := by
  refine ⟨by decide, by decide, by decide⟩

/-- C5 amended: when a new screenshot request is issued while a prior one is
outstanding, the in-progress flag is reset before reissuing (it stays
cleared if the reissue fails); the reply to the abandoned request is not
ignored, however: on_done_screenshot never consults the in-progress flag
(other than clearing it), so a reply is dropped only when image support is
disabled, and otherwise is processed like any response. -/
theorem claim_c5_stale_screenshot (env : Env) (s : St) (isMap dataOk : Bool)
    (res_w res_h res_stride : Int) :
    (s.screenshotInProgress = true → s.ntfImageEnabled = true →
      s.timerArmed = true → env.cmdOk = false →
      (queue_screenshot false env s).1.screenshotInProgress = false) ∧
    (s.ntfImageEnabled = false →
      on_done_screenshot env isMap dataOk res_w res_h res_stride s =
        (s, [])) ∧
    (∀ b1 b2 : Bool,
      (on_done_screenshot env isMap dataOk res_w res_h res_stride
        {s with screenshotInProgress := b1}).1.thumbCtx =
      (on_done_screenshot env isMap dataOk res_w res_h res_stride
        {s with screenshotInProgress := b2}).1.thumbCtx ∧
      (on_done_screenshot env isMap dataOk res_w res_h res_stride
        {s with screenshotInProgress := b1}).2 =
      (on_done_screenshot env isMap dataOk res_w res_h res_stride
        {s with screenshotInProgress := b2}).2) := by
  refine ⟨?_, ?_, ?_⟩
  · intro hsp hen htm hcmd
    unfold queue_screenshot
    rw [if_neg (by simp [hen, htm])]
    dsimp only
    rw [if_pos hsp, if_neg (by simp [hcmd])]
  · intro hen
    unfold on_done_screenshot
    rw [if_pos (by simp [hen])]
  · intro b1 b2
    unfold on_done_screenshot
    dsimp only
    cases hE : s.ntfImageEnabled <;> simp [hE]

theorem claim_c5_witness :
    (queue_screenshot false env_noCmd
      {st0 with ntfImageEnabled := true, screenshotInProgress := true,
                timerArmed := true}).1.screenshotInProgress = false :=
  (claim_c5_stale_screenshot env_noCmd
    {st0 with ntfImageEnabled := true, screenshotInProgress := true,
              timerArmed := true} true true 1 1 1).1 rfl rfl rfl rfl

theorem opts_changed_slot_self (n : OptNode) :
    opts_changed_slot n n = false := by
  unfold opts_changed_slot
  rcases n with ⟨f, os, fl, i, d1, d2⟩
  cases f <;> dsimp only <;>
    first
      | rfl
      | simp
      | (cases os <;> simp)

theorem opt_changed_effects_opts (k : OptsKey) (s : St) :
    (opt_changed_effects k s).1.opts = s.opts := by
  unfold opt_changed_effects thumbnail_ctx_destroy
  cases k <;> dsimp only <;> (repeat' split) <;> rfl

theorem opts_run_changed_go_skip (before : Opts) (ks : List OptsKey)
    (s : St) (h : ∀ k ∈ ks, opts_changed_slot (before k) (s.opts k) = false) :
    opts_run_changed_go before ks s = (s, []) := by
  induction ks with
  | nil => rfl
  | cons k rest ih =>
    have hk := h k (List.mem_cons_self k rest)
    simp only [opts_run_changed_go, hk]
    exact ih fun k2 hk2 => h k2 (List.mem_cons_of_mem k hk2)

theorem opts_run_changed_go_single (before : Opts) (k0 : OptsKey)
    (ks : List OptsKey) (s : St) (hmem : k0 ∈ ks) (hnodup : ks.Nodup)
    (hothers : ∀ k, k ≠ k0 → opts_changed_slot (before k) (s.opts k) = false)
    (hch : opts_changed_slot (before k0) (s.opts k0) = true) :
    opts_run_changed_go before ks s = opt_changed_effects k0 s := by
  induction ks with
  | nil => simp at hmem
  | cons k rest ih =>
    by_cases hk : k = k0
    · subst hk
      have hnotmem : k ∉ rest := (List.nodup_cons.1 hnodup).1
      simp only [opts_run_changed_go, hch, if_true]
      have hrest : opts_run_changed_go before rest
          (opt_changed_effects k s).1 = ((opt_changed_effects k s).1, []) := by
        apply opts_run_changed_go_skip
        intro k2 hk2
        rw [opt_changed_effects_opts]
        exact hothers k2 (fun he => hnotmem (he ▸ hk2))
      rw [hrest]
      simp
    · have hkch := hothers k hk
      simp only [opts_run_changed_go, hkch]
      have hmem2 : k0 ∈ rest := by
        rcases List.mem_cons.1 hmem with he | he
        · exact absurd he.symm hk
        · exact he
      exact ih hmem2 (List.nodup_cons.1 hnodup).2

/-- C8: for equal-shape option snapshots, a string slot counts as changed
iff its NULLness differs or its contents differ, and a flag/integer slot iff
the values differ; when the live snapshot differs from the previous one in
exactly one slot, the diff runs exactly that slot's side effects, once. -/
theorem claim_c8_opts_diff :
    (∀ b a : OptNode, b.format = a.format →
      (opts_changed_slot b a = true ↔
        ((b.format = Format.fstring ∧
          (b.string.isSome ≠ a.string.isSome ∨ b.string ≠ a.string)) ∨
         (b.format = Format.fflag ∧ b.flag ≠ a.flag) ∨
         (b.format = Format.fint64 ∧ b.int64 ≠ a.int64)))) ∧
    (∀ (before : Opts) (s : St) (k0 : OptsKey),
      (∀ k, k ≠ k0 → before k = s.opts k) →
      opts_changed_slot (before k0) (s.opts k0) = true →
      opts_run_changed before s = opt_changed_effects k0 s) := by
  constructor
  · intro b a hfmt
    rcases b with ⟨bf, bs, bfl, bi, bd1, bd2⟩
    rcases a with ⟨af, as2, afl, ai, ad1, ad2⟩
    dsimp only at hfmt
    subst hfmt
    unfold opts_changed_slot
    cases bf <;> dsimp only <;> try simp
    cases bs <;> cases as2 <;> simp
  · intro before s k0 h hch
    unfold opts_run_changed
    apply opts_run_changed_go_single
    · cases k0 <;> decide
    · decide
    · intro k hk
      rw [h k hk]
      exact opts_changed_slot_self _
    · exact hch

/-- An option snapshot that differs from the defaults only in the
notification app icon string. -/
def opts_c8 : Opts := fun k =>
  match k with
  | OptsKey.oNtfAppIcon => strNode (some "folder")
  | k2 => opts_defaults k2

/-- A state whose live options are opts_c8. -/
def stC8 : St := {st0 with opts := opts_c8}

theorem claim_c8_witness :
    opts_run_changed opts_defaults stC8 =
      opt_changed_effects OptsKey.oNtfAppIcon stC8 :=
  claim_c8_opts_diff.2 opts_defaults stC8 OptsKey.oNtfAppIcon
    (by intro k hk
        cases k <;> first | rfl | exact absurd rfl hk)
    (by decide)

theorem thumbnail_ctx_maybe_new_doneActions (env : Env)
    (src_w src_h src_stride : Int) (s : St) :
    (thumbnail_ctx_maybe_new env src_w src_h src_stride s).1.doneActions =
      s.doneActions := by
  unfold thumbnail_ctx_maybe_new thumbnail_ctx_destroy
  dsimp only
  repeat' split
  all_goals rfl

theorem thumbnail_ctx_process_mono (s : St) :
    s.doneActions.Sub ((thumbnail_ctx_process s).1.doneActions) := by
  unfold thumbnail_ctx_process
  dsimp only
  split
  · exact ActionSet.Sub.refl _
  · split <;> exact ActionSet.Sub.join_left _ _

theorem on_done_screenshot_mono (env : Env) (isMap dataOk : Bool)
    (res_w res_h res_stride : Int) (s : St) :
    s.doneActions.Sub
      ((on_done_screenshot env isMap dataOk res_w res_h res_stride
        s).1.doneActions) := by
  unfold on_done_screenshot
  dsimp only
  repeat' split
  all_goals try exact ActionSet.Sub.refl _
  have h := thumbnail_ctx_process_mono
    (thumbnail_ctx_maybe_new env res_w res_h res_stride
      {s with screenshotInProgress := false}).1
  rw [thumbnail_ctx_maybe_new_doneActions] at h
  exact h

theorem opt_changed_effects_mono (k : OptsKey) (s : St) :
    s.doneActions.Sub ((opt_changed_effects k s).1.doneActions) := by
  cases k <;> unfold opt_changed_effects thumbnail_ctx_destroy <;>
    dsimp only <;>
    first
      | exact ActionSet.Sub.refl _
      | exact ActionSet.Sub.join_left _ _
      | (split <;>
          first
            | exact ActionSet.Sub.trans (ActionSet.Sub.join_left _ _)
                (ActionSet.Sub.join_left _ _)
            | exact ActionSet.Sub.join_left _ _)

theorem opts_run_changed_go_mono (before : Opts) (ks : List OptsKey) :
    ∀ s : St, s.doneActions.Sub
      ((opts_run_changed_go before ks s).1.doneActions) := by
  induction ks with
  | nil => intro s; exact ActionSet.Sub.refl _
  | cons k rest ih =>
    intro s
    simp only [opts_run_changed_go]
    split
    · exact ActionSet.Sub.trans (opt_changed_effects_mono k s)
        (ih (opt_changed_effects k s).1)
    · exact ih s

theorem opts_run_changed_mono (before : Opts) (s : St) :
    s.doneActions.Sub ((opts_run_changed before s).1.doneActions) :=
  opts_run_changed_go_mono before allOptsKeys s

theorem opts_run_changed_mono_da (before : Opts) (s2 : St)
    (da : ActionSet) (h : s2.doneActions = da) :
    da.Sub ((opts_run_changed before s2).1.doneActions) :=
  h ▸ opts_run_changed_mono before s2

theorem on_client_message_mono (args : List String) (rd : ReloadData)
    (s : St) :
    s.doneActions.Sub ((on_client_message args rd s).1.doneActions) := by
  unfold on_client_message
  cases args with
  | nil => exact ActionSet.Sub.refl _
  | cons a rest =>
    dsimp only
    repeat' split
    all_goals
      first
        | exact ActionSet.Sub.refl _
        | exact ActionSet.Sub.join_left _ _
        | exact opts_run_changed_mono_da _ _ _ rfl

theorem prop_special_mono (ud : PropId) (d : EvData) (ro : Opts) (s : St) :
    s.doneActions.Sub ((prop_special ud d ro s).1.doneActions) := by
  cases ud <;> unfold prop_special <;> dsimp only <;>
    first
      | exact ActionSet.Sub.refl _
      | (split <;> exact opts_run_changed_mono_da _ _ _ rfl)
      | (repeat' split
         all_goals
           first
             | exact ActionSet.Sub.refl _
             | exact ActionSet.Sub.join_left _ _
             | exact ActionSet.Sub.trans (ActionSet.Sub.join_left _ _)
                 (ActionSet.Sub.join_left _ _))

theorem on_property_change_mono (ud : PropId) (d : EvData) (ro : Opts)
    (s : St) :
    s.doneActions.Sub ((on_property_change ud d ro s).1.doneActions) := by
  unfold on_property_change
  dsimp only
  refine ActionSet.Sub.trans ?_ (prop_special_mono ud d ro _)
  repeat' split
  all_goals
    first
      | exact ActionSet.Sub.refl _
      | exact ActionSet.Sub.join_left _ _

/-- C6: within one batch the accumulated action set only gains flags (every
event handler's result contains the flags that were already accumulated),
and batch resolution always leaves the action set empty — clearing it once
at the end, including any flag added during resolution itself (such as the
UPDATE added while handling CHECK_IMAGE). -/
theorem claim_c6_accumulate_monotone_clear_once :
    (∀ (env : Env) (ev : Event) (s : St),
      s.doneActions.Sub ((handleEvent env ev s).1.doneActions)) ∧
    (∀ (env : Env) (s : St),
      (done env s).1.doneActions = ActionSet.none) := by
  constructor
  · intro env ev s
    cases ev with
    | videoReconfig => exact ActionSet.Sub.join_left _ _
    | seek => exact ActionSet.Sub.join_left _ _
    | commandReply isMap dataOk w h stride =>
      exact on_done_screenshot_mono env isMap dataOk w h stride s
    | clientMessage args rd => exact on_client_message_mono args rd s
    | propChange ud d ro => exact on_property_change_mono ud d ro s
    | timerExpiry => exact ActionSet.Sub.join_left _ _
  · intro env s
    show (done_resolve env (done_pre env s).1).1.doneActions = ActionSet.none
    unfold done_resolve
    dsimp only
    split <;> rfl
